import Mathlib

/-!
Verification of the CAVE particle-fountain demo (`Particle.cpp`,
`Application.cpp`).  Machine floats are embedded as rationals; the random
generator is embedded as an explicit stream of raw draws consumed in
call order.
-/

namespace CAVE

/-- 3D vector, as used for positions, directions and gravity (`point3`). -/
structure point3 where
  x : ℚ
  y : ℚ
  z : ℚ
deriving DecidableEq

/-- RGBA color (`color4`). -/
structure color4 where
  r : ℚ
  g : ℚ
  b : ℚ
  a : ℚ
deriving DecidableEq

/-- Componentwise vector addition (`operator+` on `point3`). -/
def point3.add (u v : point3) : point3 :=
  ⟨u.x + v.x, u.y + v.y, u.z + v.z⟩

/-- Scalar multiplication (`operator*` of a scalar and a `point3`). -/
def point3.smul (s : ℚ) (v : point3) : point3 :=
  ⟨s * v.x, s * v.y, s * v.z⟩

/-- `const point3 gravity {0.0f, -1.0f, 0.0f}` in `Particle.cpp`. -/
def gravity : point3 := ⟨0, -1, 0⟩

/-- `const color4 cold {0.0f, 0.73f, 1.0f, 1.0f}` in `Particle.cpp`. -/
def cold : color4 := ⟨0, 0.73, 1, 1⟩

/-- `const color4 hot {0.8f, 0.0f, 0.0f, 1.0f}` in `Particle.cpp`. -/
def hot : color4 := ⟨0.8, 0, 0, 1⟩

/-- `const float default_life = 10.0f` in `Particle.cpp`. -/
def default_life : ℚ := 10

/-- `const float slowdown_per_second = 0.2f` in `Particle.cpp`. -/
def slowdown_per_second : ℚ := 0.2

/-- A particle: remaining life, position, and direction (velocity). -/
structure Particle where
  life : ℚ
  position : point3
  direction : point3
deriving DecidableEq

/-- `Particle::Particle(position, direction)`: stores the arguments and
initializes `life` with `default_life`. -/
def Particle.construct (position direction : point3) : Particle :=
  ⟨default_life, position, direction⟩

/-- `Particle::update(time_delta)` from `Particle.cpp`:
`position = position + (time_delta*direction)`;
`direction = (1.0f - time_delta * slowdown_per_second) * direction + time_delta * gravity`;
`life -= time_delta`. -/
def Particle.update (p : Particle) (time_delta : ℚ) : Particle :=
  { p with
    position := p.position.add (point3.smul time_delta p.direction)
    direction := (point3.smul (1 - time_delta * slowdown_per_second) p.direction).add
      (point3.smul time_delta gravity)
    life := p.life - time_delta }

/-- Modelled from the spec: `Particle::dead()` is declared in `Particle.h`,
which is not among the provided sources; the spec states
"is_dead(): true iff life ≤ 0". -/
def Particle.dead (p : Particle) : Bool := p.life ≤ 0

/-- Modelled from the spec: `color_grad` is declared outside the provided
sources; the spec states "linear interpolation between a cold and a hot
color ... clamped implicitly by the interpolation factor range".  The
factor is clamped to `[0,1]` and each channel is interpolated linearly. -/
def color_grad (c h : color4) (t : ℚ) : color4 :=
  let s := max 0 (min 1 t)
  ⟨c.r + (h.r - c.r) * s, c.g + (h.g - c.g) * s,
   c.b + (h.b - c.b) * s, c.a + (h.a - c.a) * s⟩

/-- `Particle::get_color()` from `Particle.cpp`:
`return color_grad(cold, hot, direction.y/2+1.0f)`. -/
def Particle.get_color (p : Particle) : color4 :=
  color_grad cold hot (p.direction.y / 2 + 1)

/-- `const size_t particles_per_second = 400` in `Application.cpp`. -/
def particles_per_second : ℕ := 400

/-- `const point3 default_position = {0.0f, 0.0f, -5.0f}` in `Application.cpp`. -/
def default_position : point3 := ⟨0, 0, -5⟩

/-- The replicated per-frame state `state_` (viewer position, yaw, timing,
reset flag and spawn counter). -/
structure NavState where
  position : point3
  rotation_y : ℚ
  time_delta : ℚ
  reset_scene : Bool
  particles_to_create : ℕ
deriving DecidableEq

/-- The random generator together with the two `uniform_real_distribution`
objects, embedded as a stream of raw draws in `[0,1)` and an index of the
next draw to consume. -/
structure Gen where
  stream : ℕ → ℚ
  idx : ℕ

/-- One call of a `std::uniform_real_distribution<float>(a, b)` object on the
generator: maps the next raw draw `u ∈ [0,1)` affinely onto `[a,b)` and
advances the generator. -/
def uniform_draw (a b : ℚ) (g : Gen) : ℚ × Gen :=
  (a + g.stream g.idx * (b - a), ⟨g.stream, g.idx + 1⟩)

/-- `create_particle(d_position, d_direction, generator)` from
`Application.cpp`: three position draws from the `(0.0, 1.0)` distribution,
then the three direction draws from the `(-1.0, 1.0)` distribution, with
`direction.y = d_direction(generator)*2.0f+2.0`. -/
def create_particle (g : Gen) : Particle × Gen :=
  let px := uniform_draw 0 1 g
  let py := uniform_draw 0 1 px.2
  let pz := uniform_draw 0 1 py.2
  let dx := uniform_draw (-1) 1 pz.2
  let dy := uniform_draw (-1) 1 dx.2
  let dz := uniform_draw (-1) 1 dy.2
  (Particle.construct ⟨px.1, py.1, pz.1⟩ ⟨dx.1, dy.1 * 2 + 2, dz.1⟩, dz.2)

/-- The simulation-relevant fields of `Application`: the replicated state,
the particle pool `particles_`, the generator (with its distributions), and
`last_time_`. -/
structure Application where
  state : NavState
  particles : List Particle
  generator : Gen
  last_time : ℚ

/-- `Application::reset(value)` from `Application.cpp`:
`state_.reset_scene = value`; if `value` also restores `position` to
`default_position` and `rotation_y` to `0`. -/
def NavState.reset (value : Bool) (s : NavState) : NavState :=
  let s1 := { s with reset_scene := value }
  if value then { s1 with position := default_position, rotation_y := 0 } else s1

/-- The spawn loop of `Application::update`: `particles_to_create` times,
`particles_.emplace_back(create_particle(...))`. -/
def spawn_particles : ℕ → List Particle → Gen → List Particle × Gen
  | 0, ps, g => (ps, g)
  | n + 1, ps, g =>
    let pg := create_particle g
    spawn_particles n (ps ++ [pg.1]) pg.2

/-- `Application::update()` from `Application.cpp`: clear the pool when
`reset_scene` is set, spawn `particles_to_create` particles, update every
particle by `time_delta`, erase the dead ones (`remove_if` + `erase`), and
finish with `reset(false)`. -/
def Application.update (app : Application) : Application :=
  let ps0 := if app.state.reset_scene then [] else app.particles
  let spawned := spawn_particles app.state.particles_to_create ps0 app.generator
  let updated := spawned.1.map (fun p => p.update app.state.time_delta)
  let alive := updated.filter (fun p => !p.dead)
  { app with
    particles := alive
    generator := spawned.2
    state := app.state.reset false }

/-- `Application::update_time(current_time)` from `Application.cpp`:
`state_.time_delta = current_time - last_time_`; `last_time_ = current_time`;
`state_.particles_to_create = static_cast<size_t>(particles_per_second * state_.time_delta)`
(the cast truncates, which is the floor for the nonnegative deltas it is
applied to; a negative product is clamped to `0` here). -/
def Application.update_time (app : Application) (current_time : ℚ) : Application :=
  let dt := current_time - app.last_time
  { app with
    state := { app.state with
      time_delta := dt
      particles_to_create := (⌊(particles_per_second : ℚ) * dt⌋).toNat }
    last_time := current_time }

/-- The `Application` constructor initializes `last_time_(0.0)`; the other
simulation fields are taken as given. -/
def Application.construct (s : NavState) (ps : List Particle) (g : Gen) : Application :=
  ⟨s, ps, g, 0⟩

/-- C1: `Particle::update(dt)` sets `position` to `position + dt*direction`,
sets `direction` to `(1 - dt*drag)*direction + dt*gravity` with drag
coefficient `0.2` and gravity `(0,-1,0)`, and decreases `life` by exactly
`dt` (so for `dt > 0` life decreases by exactly `dt`); for `dt = 0` the
call leaves position, direction and life unchanged. -/
theorem particle_update_spec (p : Particle) (dt : ℚ) :
    (p.update dt).position.x = p.position.x + dt * p.direction.x ∧
    (p.update dt).position.y = p.position.y + dt * p.direction.y ∧
    (p.update dt).position.z = p.position.z + dt * p.direction.z ∧
    (p.update dt).direction.x = (1 - dt * (0.2 : ℚ)) * p.direction.x + dt * 0 ∧
    (p.update dt).direction.y = (1 - dt * (0.2 : ℚ)) * p.direction.y + dt * (-1) ∧
    (p.update dt).direction.z = (1 - dt * (0.2 : ℚ)) * p.direction.z + dt * 0 ∧
    slowdown_per_second = 0.2 ∧ gravity = ⟨0, -1, 0⟩ ∧
    (p.update dt).life = p.life - dt ∧
    p.update 0 = p := by
  obtain ⟨life, ⟨px, py, pz⟩, ⟨dx, dy, dz⟩⟩ := p
  simp [Particle.update, point3.add, point3.smul, gravity, slowdown_per_second]

/-- C5: spawning `n` particles appends exactly `n` particles to the pool:
the pool size grows by exactly `n`, before any advance or pruning. -/
theorem spawn_particles_length (n : ℕ) (ps : List Particle) (g : Gen) :
    (spawn_particles n ps g).1.length = ps.length + n := by
  induction n generalizing ps g with
  | zero => simp [spawn_particles]
  | succ m ih =>
    simp [spawn_particles, ih]
    omega

/-- C7: `Particle(position, direction)` sets `life` to exactly `10`
time-units and stores the given position and direction unchanged. -/
theorem particle_construct_spec (pos dir : point3) :
    (Particle.construct pos dir).life = 10 ∧
    (Particle.construct pos dir).position = pos ∧
    (Particle.construct pos dir).direction = dir ∧
    default_life = 10 := by
  refine ⟨rfl, rfl, rfl, rfl⟩

/-- C8: the constructor initializes `last_time_` to `0`, so the very first
`update_time(current_time)` sets `time_delta` to `current_time - 0 =
current_time` — the anomalously large first-frame delta. -/
theorem first_tick_time_delta (s : NavState) (ps : List Particle) (g : Gen)
    (current_time : ℚ) :
    (Application.construct s ps g).last_time = 0 ∧
    ((Application.construct s ps g).update_time current_time).state.time_delta
      = current_time - 0 ∧
    ((Application.construct s ps g).update_time current_time).state.time_delta
      = current_time := by
  refine ⟨rfl, rfl, by simp [Application.update_time, Application.construct]⟩

/-- C10: `reset(true)` raises the reset flag, restores the viewer position
to `(0,0,-5)` and the yaw to `0`; `reset(false)` lowers the flag and leaves
position and yaw unchanged; and `Application::update()` ends with
`reset(false)`, so the flag holds for at most one tick. -/
theorem reset_spec (s : NavState) (app : Application) :
    (s.reset true).reset_scene = true ∧
    (s.reset true).position = default_position ∧
    default_position = ⟨0, 0, -5⟩ ∧
    (s.reset true).rotation_y = 0 ∧
    (s.reset false).reset_scene = false ∧
    (s.reset false).position = s.position ∧
    (s.reset false).rotation_y = s.rotation_y ∧
    app.update.state.reset_scene = false := by
  refine ⟨rfl, rfl, rfl, rfl, rfl, rfl, rfl, ?_⟩
  simp [Application.update, NavState.reset]

/-- A generator whose raw draws are all `0`, for concrete evaluations. -/
def g0 : Gen := ⟨fun _ => 0, 0⟩

/-- A concrete application state with `last_time_ = 0`. -/
def app0 : Application := Application.construct ⟨⟨0, 0, 0⟩, 0, 0, false, 0⟩ [] g0

/-- A concrete particle at the origin with zero direction. -/
def particle0 : Particle := Particle.construct ⟨0, 0, 0⟩ ⟨0, 0, 0⟩

/-- A concrete navigation state with the reset flag raised. -/
def nav_reset0 : NavState := ⟨⟨0, 0, 0⟩, 0, 0, true, 0⟩

/-- C2: `update_time` sets `particles_to_create` to
`floor(particles_per_second * time_delta)` with `particles_per_second = 400`;
in particular `time_delta = 0.1` yields `40`. -/
theorem update_time_spawn_count (app : Application) (t : ℚ)
    (h : 0 ≤ t - app.last_time) :
    ((app.update_time t).state.particles_to_create : ℤ)
      = ⌊(particles_per_second : ℚ) * (app.update_time t).state.time_delta⌋ ∧
    particles_per_second = 400 ∧
    ((app.update_time t).state.time_delta = 1 / 10 →
      (app.update_time t).state.particles_to_create = 40) := by
  refine ⟨?_, rfl, ?_⟩
  · simp only [Application.update_time]
    exact Int.toNat_of_nonneg (Int.floor_nonneg.mpr (by positivity))
  · intro hdt
    simp only [Application.update_time] at hdt ⊢
    rw [hdt]
    norm_num [particles_per_second]
    rfl

/-- C2 witness: at `last_time = 0` and `current_time = 0.1`. -/
theorem update_time_spawn_count_witness :
    (0 ≤ (1 : ℚ) / 10 - app0.last_time) ∧
    (((app0.update_time (1 / 10)).state.particles_to_create : ℤ)
      = ⌊(particles_per_second : ℚ) * (app0.update_time (1 / 10)).state.time_delta⌋ ∧
    particles_per_second = 400 ∧
    ((app0.update_time (1 / 10)).state.time_delta = 1 / 10 →
      (app0.update_time (1 / 10)).state.particles_to_create = 40)) :=
  ⟨by norm_num [app0, Application.construct],
   update_time_spawn_count app0 (1 / 10) (by norm_num [app0, Application.construct])⟩

/-- C3: after a full `Application::update()` (clear on reset, spawn, advance
every particle, prune), no particle with `life ≤ 0` remains in the pool;
and `dead` holds exactly when `life ≤ 0`. -/
theorem update_no_dead_particles (app : Application) :
    (app.update.particles.all fun p => !p.dead) = true ∧
    (∀ q : Particle, q.dead = true ↔ q.life ≤ 0) := by
  constructor
  · simp only [Application.update, List.all_eq_true, List.mem_filter]
    intro p hp
    exact hp.2
  · intro q
    simp [Particle.dead]

/-- C4: with the reset flag set, `Application::update()` produces a pool
independent of the prior particles — and when nothing is spawned, an empty
pool — so none of the prior particles remain. -/
theorem reset_clears_prior_particles (s : NavState) (ps : List Particle)
    (g : Gen) (lt : ℚ) (h : s.reset_scene = true) :
    (Application.update ⟨s, ps, g, lt⟩).particles
      = (Application.update ⟨s, [], g, lt⟩).particles ∧
    (s.particles_to_create = 0 →
      (Application.update ⟨s, ps, g, lt⟩).particles = []) := by
  constructor
  · simp [Application.update, h]
  · intro h0
    simp [Application.update, h, h0, spawn_particles]

/-- C4 witness: a reset mid-simulation with 50 live particles leaves none
of them in the pool. -/
theorem reset_clears_prior_particles_witness :
    nav_reset0.reset_scene = true ∧
    ((Application.update ⟨nav_reset0, List.replicate 50 particle0, g0, 0⟩).particles
      = (Application.update ⟨nav_reset0, [], g0, 0⟩).particles ∧
    (nav_reset0.particles_to_create = 0 →
      (Application.update ⟨nav_reset0, List.replicate 50 particle0, g0, 0⟩).particles = [])) :=
  ⟨rfl, reset_clears_prior_particles nav_reset0 (List.replicate 50 particle0) g0 0 rfl⟩

/-- C6: with raw draws in `[0,1]`, a newly spawned particle has each
position coordinate in the unit interval `[0,1]`, direction `x` and `z`
components in `[-1,1]`, and a direction `y` component equal to a uniform
`[-1,1]` draw remapped affinely by `u ↦ u*2 + 2` into `[0,4]`. -/
theorem create_particle_spec (g : Gen)
    (h : ∀ i, 0 ≤ g.stream i ∧ g.stream i ≤ 1) :
    (0 ≤ (create_particle g).1.position.x ∧ (create_particle g).1.position.x ≤ 1) ∧
    (0 ≤ (create_particle g).1.position.y ∧ (create_particle g).1.position.y ≤ 1) ∧
    (0 ≤ (create_particle g).1.position.z ∧ (create_particle g).1.position.z ≤ 1) ∧
    (-1 ≤ (create_particle g).1.direction.x ∧ (create_particle g).1.direction.x ≤ 1) ∧
    (-1 ≤ (create_particle g).1.direction.z ∧ (create_particle g).1.direction.z ≤ 1) ∧
    (∃ u, -1 ≤ u ∧ u ≤ 1 ∧ (create_particle g).1.direction.y = u * 2 + 2) ∧
    (0 ≤ (create_particle g).1.direction.y ∧ (create_particle g).1.direction.y ≤ 4) := by
  have h0 := h g.idx
  have h1 := h (g.idx + 1)
  have h2 := h (g.idx + 1 + 1)
  have h3 := h (g.idx + 1 + 1 + 1)
  have h4 := h (g.idx + 1 + 1 + 1 + 1)
  have h5 := h (g.idx + 1 + 1 + 1 + 1 + 1)
  simp only [create_particle, uniform_draw, Particle.construct]
  refine ⟨⟨by linarith [h0.1], by linarith [h0.2]⟩,
    ⟨by linarith [h1.1], by linarith [h1.2]⟩,
    ⟨by linarith [h2.1], by linarith [h2.2]⟩,
    ⟨by linarith [h3.1], by linarith [h3.2]⟩,
    ⟨by linarith [h5.1], by linarith [h5.2]⟩,
    ⟨-1 + g.stream (g.idx + 1 + 1 + 1 + 1) * (1 - -1),
      by linarith [h4.1], by linarith [h4.2], rfl⟩,
    by linarith [h4.1], by linarith [h4.2]⟩

/-- C6 witness: the all-zero draw stream. -/
theorem create_particle_spec_witness :
    (∀ i, 0 ≤ g0.stream i ∧ g0.stream i ≤ 1) ∧
    ((0 ≤ (create_particle g0).1.position.x ∧ (create_particle g0).1.position.x ≤ 1) ∧
    (0 ≤ (create_particle g0).1.position.y ∧ (create_particle g0).1.position.y ≤ 1) ∧
    (0 ≤ (create_particle g0).1.position.z ∧ (create_particle g0).1.position.z ≤ 1) ∧
    (-1 ≤ (create_particle g0).1.direction.x ∧ (create_particle g0).1.direction.x ≤ 1) ∧
    (-1 ≤ (create_particle g0).1.direction.z ∧ (create_particle g0).1.direction.z ≤ 1) ∧
    (∃ u, -1 ≤ u ∧ u ≤ 1 ∧ (create_particle g0).1.direction.y = u * 2 + 2) ∧
    (0 ≤ (create_particle g0).1.direction.y ∧ (create_particle g0).1.direction.y ≤ 4)) :=
  ⟨fun _ => by norm_num [g0], create_particle_spec g0 (fun _ => by norm_num [g0])⟩

/-- C9: `get_color` is a pure function of the particle direction, the
clamped linear interpolation between the cold color `(0,0.73,1,1)` and the
hot color `(0.8,0,0,1)` at factor `direction.y/2 + 1`; as the factor grows
each channel moves monotonically from the cold value to the hot value, and
outside the factor range the color saturates at the endpoints. -/
theorem get_color_spec (p : Particle) (t1 t2 : ℚ) (h : t1 ≤ t2) :
    p.get_color = color_grad cold hot (p.direction.y / 2 + 1) ∧
    cold = ⟨0, 0.73, 1, 1⟩ ∧ hot = ⟨0.8, 0, 0, 1⟩ ∧
    (color_grad cold hot t1).r ≤ (color_grad cold hot t2).r ∧
    (color_grad cold hot t2).g ≤ (color_grad cold hot t1).g ∧
    (color_grad cold hot t2).b ≤ (color_grad cold hot t1).b ∧
    (color_grad cold hot t1).a = (color_grad cold hot t2).a ∧
    (t1 ≤ 0 → color_grad cold hot t1 = cold) ∧
    (1 ≤ t2 → color_grad cold hot t2 = hot) := by
  have hb : max 0 (min 1 t1) ≤ max 0 (min 1 t2) :=
    max_le_max (le_refl (0 : ℚ)) (min_le_min (le_refl (1 : ℚ)) h)
  refine ⟨rfl, rfl, rfl, ?_, ?_, ?_, ?_, ?_, ?_⟩
  · simp only [color_grad, cold, hot]
    linarith [hb]
  · simp only [color_grad, cold, hot]
    linarith [hb]
  · simp only [color_grad, cold, hot]
    linarith [hb]
  · simp only [color_grad, cold, hot]
    ring
  · intro ht
    have hle : min 1 t1 ≤ 0 := le_trans (min_le_right _ _) ht
    have hmax : max 0 (min 1 t1) = 0 := max_eq_left hle
    simp only [color_grad, cold, hot, hmax]
    norm_num
  · intro ht
    have hmin : min 1 t2 = 1 := min_eq_left ht
    have hmax : max 0 (min 1 t2) = 1 := by rw [hmin]; exact max_eq_right zero_le_one
    simp only [color_grad, cold, hot, hmax]
    norm_num

/-- C9 witness: the factor endpoints `0 ≤ 1`. -/
theorem get_color_spec_witness :
    (0 : ℚ) ≤ 1 ∧
    (particle0.get_color = color_grad cold hot (particle0.direction.y / 2 + 1) ∧
    cold = ⟨0, 0.73, 1, 1⟩ ∧ hot = ⟨0.8, 0, 0, 1⟩ ∧
    (color_grad cold hot 0).r ≤ (color_grad cold hot 1).r ∧
    (color_grad cold hot 1).g ≤ (color_grad cold hot 0).g ∧
    (color_grad cold hot 1).b ≤ (color_grad cold hot 0).b ∧
    (color_grad cold hot 0).a = (color_grad cold hot 1).a ∧
    ((0 : ℚ) ≤ 0 → color_grad cold hot 0 = cold) ∧
    ((1 : ℚ) ≤ 1 → color_grad cold hot 1 = hot)) :=
  ⟨by norm_num, get_color_spec particle0 0 1 (by norm_num)⟩

end CAVE
